import Mathlib

/-!
Verification development for the `version-it-ng` repository, centred on the
version block composition engine (`crates/version-it-core/src/blocks.rs` and
`crates/version-it-core/src/composer.rs`) together with the bump/stringify
operations of `VersionInfo` (`crates/version-it-core/src/lib.rs` and the
parallel crate `crates/version-it-version/src/lib.rs`).

Rust `HashMap`s are modelled as association lists with overwrite-on-insert
semantics; `Box<dyn Error>` values are modelled by the inductive `GenError`
whose constructors record the distinct error construction sites of the
source.  Wall-clock and git subprocess results are modelled by an explicit
environment record `Env` threaded through evaluation; a git invocation is an
`Except String CmdOutput`, where the `error` case is the `std::io::Error`
raised when the command cannot be spawned (propagated by `?` in the source)
and `CmdOutput` carries the exit status and stdout of a command that did run.
-/

/-- Decidable equality for `Except`, used to evaluate concrete results. -/
instance exceptDecEq {ε α : Type} [DecidableEq ε] [DecidableEq α] : DecidableEq (Except ε α)
  | .error e, .error f =>
    if h : e = f then .isTrue (by rw [h]) else .isFalse (by intro hh; cases hh; exact h rfl)
  | .error _, .ok _ => .isFalse (by intro h; cases h)
  | .ok _, .error _ => .isFalse (by intro h; cases h)
  | .ok a, .ok b =>
    if h : a = b then .isTrue (by rw [h]) else .isFalse (by intro hh; cases hh; exact h rfl)

/-- First binding of key `k` in an association list (model of `HashMap::get`). -/
def assocFind {α : Type} (m : List (String × α)) (k : String) : Option α :=
  match m with
  | [] => none
  | (k', v) :: rest => if k' = k then some v else assocFind rest k

/-- Insert-or-overwrite of a binding (model of `HashMap::insert`). -/
def assocInsert {α : Type} (m : List (String × α)) (k : String) (v : α) : List (String × α) :=
  match m with
  | [] => [(k, v)]
  | (k', v') :: rest => if k' = k then (k, v) :: rest else (k', v') :: assocInsert rest k v

/-- Left-biased choice on options, written out to keep proofs elementary. -/
def orO {α : Type} (a b : Option α) : Option α :=
  match a with
  | some v => some v
  | none => b

/-- Decimal digits to a natural number, for parsing numeric components. -/
def digitsToNat (l : List Char) : Nat :=
  l.foldl (fun acc c => acc * 10 + (c.toNat - 48)) 0

/-- Split a character list at every occurrence of `c` (model of `str::split`). -/
def splitOnChar (c : Char) : List Char → List (List Char)
  | [] => [[]]
  | x :: xs =>
    match splitOnChar c xs with
    | [] => [[]]
    | cur :: rest => if x = c then [] :: cur :: rest else (x :: cur) :: rest

/-- Strip leading and trailing whitespace (model of `str::trim`). -/
def strTrim (s : String) : String :=
  String.mk (((s.toList.dropWhile Char.isWhitespace).reverse.dropWhile Char.isWhitespace).reverse)

/-- Zero-left-pad a natural number to `width` digits (model of `format!("{:0w}", n)`). -/
def natPad (width n : Nat) : String :=
  let s := toString n
  if s.length < width then String.mk (List.replicate (width - s.length) '0') ++ s else s

/-- A nonempty all-digit string. -/
def isDigitStr (l : List Char) : Bool :=
  decide (l ≠ []) && l.all Char.isDigit

/-- The distinct error values produced by the composition engine.  The source
stores all of them as `Box<dyn Error>` string payloads; each constructor below
corresponds to one error construction site. -/
inductive GenError
  | parseError (msg : String)
  | ioError (msg : String)
  | referencedBlockNotFound (name : String)
  | noTemplateSelected
  | templateNotFound (name : String)
deriving DecidableEq, Repr

/-- Parsed semantic version, mirroring `semver::Version` (numeric triple plus
prerelease and build-metadata strings; `""` models the empty tag). -/
structure SemVer where
  major : Nat
  minor : Nat
  patch : Nat
  pre : String
  buildMeta : String
deriving DecidableEq, Repr

/-- Model of the external `semver` crate's `Version::parse` collaborator (spec
section 4.1: dotted `major.minor.patch` optionally followed by `-prerelease`
and `+build`; malformed input is a parse error).  The crate itself is outside
the repository; this model accepts exactly the dotted-triple shape with the
optional suffixes split at the first `-` and the `+`. -/
def semverParse (s : String) : Except GenError SemVer :=
  match splitOnChar '+' s.toList with
  | [corePre] => semverParseCore corePre ""
  | [corePre, bmeta] => semverParseCore corePre (String.mk bmeta)
  | _ => .error (.parseError s)
where
  semverParseCore (corePre : List Char) (bmeta : String) : Except GenError SemVer :=
    match splitOnChar '-' corePre with
    | [] => .error (.parseError (String.mk corePre))
    | core :: preParts =>
      let pre := String.intercalate "-" (preParts.map String.mk)
      match splitOnChar '.' core with
      | [a, b, c] =>
        if isDigitStr a && isDigitStr b && isDigitStr c then
          .ok { major := digitsToNat a, minor := digitsToNat b, patch := digitsToNat c,
                pre := pre, buildMeta := bmeta }
        else .error (.parseError (String.mk core))
      | _ => .error (.parseError (String.mk core))

/-- `semver::Version::to_string`: `M.m.p[-pre][+build]`. -/
def semverToString (v : SemVer) : String :=
  toString v.major ++ "." ++ toString v.minor ++ "." ++ toString v.patch
    ++ (if v.pre = "" then "" else "-" ++ v.pre)
    ++ (if v.buildMeta = "" then "" else "+" ++ v.buildMeta)

/-- Captured output of a subprocess that did run: exit-status flag and stdout
(model of `std::process::Output` as consumed by the source). -/
structure CmdOutput where
  success : Bool
  stdout : String
deriving DecidableEq, Repr

/-- External collaborators consulted during block evaluation: the UTC clock
(`chrono`) and the two git subprocess invocations.  An `Except.error` git
result models the spawn failure that `Command::output()?` propagates; an
`Except.ok` result models a command that ran, successfully or not. -/
structure Env where
  nowYear : Nat
  nowMonth : Nat
  nowDay : Nat
  tsUnix : String
  tsUnixMs : String
  tsYmdHms : String
  tsIso : String
  formatNow : String → String
  gitShortHead : Except String CmdOutput
  gitBranch : Except String CmdOutput

/-- `BlockType` from `blocks.rs`: the closed variant of block kinds. -/
inductive BlockType
  | semantic (major minor patch : Option Nat)
  | calver (year month day : Option Nat)
  | timestamp
  | commit
  | counter (name : String)
  | text (value : String)
  | date (format : String)
  | branch
  | buildNumber
  | versioned (name : String)
deriving DecidableEq, Repr

/-- `VersionBlock` from `blocks.rs`. -/
structure VersionBlock where
  name : String
  block_type : BlockType
  format : Option String
  config : List (String × String)
deriving DecidableEq, Repr

/-- `VersionContext` from `blocks.rs`. -/
structure VersionContext where
  current_version : Option String
  current_commit : Option String
  current_branch : Option String
  build_number : Option Nat
  counters : List (String × Nat)
  block_values : List (String × String)
deriving DecidableEq, Repr

/-- `VersionContext::new` / `Default`. -/
def VersionContext.new : VersionContext :=
  { current_version := none, current_commit := none, current_branch := none,
    build_number := none, counters := [], block_values := [] }

/-- `VersionContext::set_block_value`. -/
def VersionContext.set_block_value (ctx : VersionContext) (name value : String) : VersionContext :=
  { ctx with block_values := assocInsert ctx.block_values name value }

/-- `VersionBlock::generate_value` from `blocks.rs`, arm by arm.  Rust `match`
on `&str` patterns is rendered as an equality chain. -/
def VersionBlock.generate_value (env : Env) (b : VersionBlock) (ctx : VersionContext) :
    Except GenError String :=
  match b.block_type with
  | .semantic major minor patch =>
    let base_version := ctx.current_version.getD "0.0.0"
    match semverParse base_version with
    | .error e => .error e
    | .ok v0 =>
      let v1 := match major with | some m => { v0 with major := m } | none => v0
      let v2 := match minor with | some m => { v1 with minor := m } | none => v1
      let v3 := match patch with | some p => { v2 with patch := p } | none => v2
      .ok (semverToString v3)
  | .calver year month day =>
    let y := year.getD env.nowYear
    let m := month.getD env.nowMonth
    let d := day.getD env.nowDay
    let formatted :=
      if b.format = some "YY.MM.DD" then natPad 2 (y % 100) ++ "." ++ natPad 2 m ++ "." ++ natPad 2 d
      else if b.format = some "YYYY.MM.DD" then natPad 4 y ++ "." ++ natPad 2 m ++ "." ++ natPad 2 d
      else if b.format = some "YYMMDD" then natPad 2 (y % 100) ++ natPad 2 m ++ natPad 2 d
      else if b.format = some "YYYYMMDD" then natPad 4 y ++ natPad 2 m ++ natPad 2 d
      else natPad 2 (y % 100) ++ "." ++ natPad 2 m ++ "." ++ natPad 2 d
    .ok formatted
  | .timestamp =>
    .ok (if b.format = some "unix" then env.tsUnix
      else if b.format = some "unix_ms" then env.tsUnixMs
      else if b.format = some "YYYYMMDDHHMMSS" then env.tsYmdHms
      else if b.format = some "iso" then env.tsIso
      else env.tsYmdHms)
  | .commit =>
    match ctx.current_commit with
    | some c => .ok c
    | none =>
      match env.gitShortHead with
      | .error e => .error (.ioError e)
      | .ok output => .ok (if output.success then strTrim output.stdout else "unknown")
  | .counter name => .ok (toString ((assocFind ctx.counters name).getD 0))
  | .text value => .ok value
  | .date fmt => .ok (env.formatNow fmt)
  | .branch =>
    match ctx.current_branch with
    | some br => .ok br
    | none =>
      match env.gitBranch with
      | .error e => .error (.ioError e)
      | .ok output => .ok (if output.success then strTrim output.stdout else "unknown")
  | .buildNumber => .ok (toString (ctx.build_number.getD 1))
  | .versioned name =>
    match assocFind ctx.block_values name with
    | some value => .ok value
    | none => .error (.referencedBlockNotFound name)

/-- `VersionTemplate` from `blocks.rs`.  The source fields `prefix`/`suffix`
are named `pfx`/`sfx` here. -/
structure VersionTemplate where
  name : String
  blocks : List VersionBlock
  separator : String
  pfx : Option String
  sfx : Option String
deriving DecidableEq, Repr

/-- The block loop inside `VersionTemplate::generate`: evaluate each block in
order, store its value in the context, and accumulate the produced parts. -/
def generateLoop (env : Env) (blocks : List VersionBlock) (ctx : VersionContext)
    (acc : List String) : Except GenError (List String × VersionContext) :=
  match blocks with
  | [] => .ok (acc, ctx)
  | b :: rest =>
    match b.generate_value env ctx with
    | .error e => .error e
    | .ok value => generateLoop env rest (ctx.set_block_value b.name value) (acc ++ [value])

/-- `VersionTemplate::generate` from `blocks.rs`: clear `block_values`, run the
block loop, join with the separator, then wrap with prefix/suffix by the
source's four-way match. -/
def VersionTemplate.generate (env : Env) (t : VersionTemplate) (ctx : VersionContext) :
    Except GenError String :=
  let ctx0 := { ctx with block_values := [] }
  match generateLoop env t.blocks ctx0 [] with
  | .error e => .error e
  | .ok (parts, _) =>
    let joined := String.intercalate t.separator parts
    .ok (match t.pfx, t.sfx with
      | some p, some s => p ++ joined ++ s
      | some p, none => p ++ joined
      | none, some s => joined ++ s
      | none, none => joined)

/-- Specification-side rendering of the generation algorithm, following the
spec's section 4.3 word for word: evaluate the blocks of the template in
declared order, storing each value under the block's name before the next
block is evaluated, aborting on the first error; then join the values with the
separator and concatenate the prefix in front and the suffix behind (absent
prefix/suffix contribute nothing). -/
def specEvalBlocks (env : Env) : List VersionBlock → VersionContext → Except GenError (List String)
  | [], _ => .ok []
  | b :: rest, ctx =>
    match b.generate_value env ctx with
    | .error e => .error e
    | .ok v =>
      match specEvalBlocks env rest (ctx.set_block_value b.name v) with
      | .error e => .error e
      | .ok vs => .ok (v :: vs)

/-- Spec-side `generate` (see `specEvalBlocks`). -/
def specGenerate (env : Env) (t : VersionTemplate) (ctx : VersionContext) :
    Except GenError String :=
  match specEvalBlocks env t.blocks { ctx with block_values := [] } with
  | .error e => .error e
  | .ok vs => .ok ((t.pfx.getD "") ++ String.intercalate t.separator vs ++ (t.sfx.getD ""))

/-- `VersionComposer` from `composer.rs`. -/
structure VersionComposer where
  templates : List (String × VersionTemplate)
  counters : List (String × Nat)
  default_template : Option String
deriving DecidableEq, Repr

/-- `VersionComposer::set_counter`. -/
def VersionComposer.set_counter (c : VersionComposer) (name : String) (value : Nat) :
    VersionComposer :=
  { c with counters := assocInsert c.counters name value }

/-- `VersionComposer::increment_counter`: state-passing translation returning
the method's `u32` result next to the updated composer. -/
def VersionComposer.increment_counter (c : VersionComposer) (name : String) :
    Nat × VersionComposer :=
  let current := (assocFind c.counters name).getD 0
  let new_value := current + 1
  (new_value, { c with counters := assocInsert c.counters name new_value })

/-- `VersionComposer::build_context`: seed a fresh context with the composer's
counters, then best-effort git commit/branch (a field is set only when the git
command spawned and exited successfully; both failure modes leave it `none`). -/
def VersionComposer.build_context (env : Env) (c : VersionComposer) : VersionContext :=
  let ctx := c.counters.foldl
    (fun acc kv => { acc with counters := assocInsert acc.counters kv.1 kv.2 })
    VersionContext.new
  let ctx := match env.gitShortHead with
    | .ok output =>
      if output.success then { ctx with current_commit := some (strTrim output.stdout) } else ctx
    | .error _ => ctx
  match env.gitBranch with
  | .ok output =>
    if output.success then { ctx with current_branch := some (strTrim output.stdout) } else ctx
  | .error _ => ctx

/-- The template-name resolution shared by `generate_version` and
`generate_version_with_context`: explicit argument, else the default. -/
def VersionComposer.template_name_resolved (c : VersionComposer)
    (template_name : Option String) : Option String :=
  match template_name with
  | some n => some n
  | none => c.default_template

/-- The resolution prefix repeated verbatim at the top of both generation
methods in `composer.rs`: `ok_or` of the resolved name, then map lookup. -/
def VersionComposer.resolveTemplate (c : VersionComposer) (template_name : Option String) :
    Except GenError VersionTemplate :=
  match c.template_name_resolved template_name with
  | none => .error .noTemplateSelected
  | some n =>
    match assocFind c.templates n with
    | none => .error (.templateNotFound n)
    | some t => .ok t

/-- `VersionComposer::generate_version`. -/
def VersionComposer.generate_version (env : Env) (c : VersionComposer)
    (template_name : Option String) : Except GenError String :=
  match c.resolveTemplate template_name with
  | .error e => .error e
  | .ok t => t.generate env (c.build_context env)

/-- The context-merging body of `generate_version_with_context`: each `Some`
field of the caller's context overwrites the base field, then the caller's
counters are inserted one by one into the base counters. -/
def mergeContext (base octx : VersionContext) : VersionContext :=
  let fc := match octx.current_version with
    | some v => { base with current_version := some v }
    | none => base
  let fc := match octx.current_commit with
    | some v => { fc with current_commit := some v }
    | none => fc
  let fc := match octx.current_branch with
    | some v => { fc with current_branch := some v }
    | none => fc
  let fc := match octx.build_number with
    | some v => { fc with build_number := some v }
    | none => fc
  octx.counters.foldl (fun acc kv => { acc with counters := assocInsert acc.counters kv.1 kv.2 }) fc

/-- `VersionComposer::generate_version_with_context`. -/
def VersionComposer.generate_version_with_context (env : Env) (c : VersionComposer)
    (template_name : Option String) (context : VersionContext) : Except GenError String :=
  match c.resolveTemplate template_name with
  | .error e => .error e
  | .ok t => t.generate env (mergeContext (c.build_context env) context)

/-- State-passing translation of `generate_version`'s `&mut self` receiver:
the method body reads `self` but contains no write to any of its fields, so
the translation returns the composer next to the result. -/
def VersionComposer.generate_versionS (env : Env) (c : VersionComposer)
    (template_name : Option String) : Except GenError String × VersionComposer :=
  (c.generate_version env template_name, c)

/-- State-passing translation of `generate_version_with_context` (same
reasoning as `generate_versionS`). -/
def VersionComposer.generate_version_with_contextS (env : Env) (c : VersionComposer)
    (template_name : Option String) (context : VersionContext) :
    Except GenError String × VersionComposer :=
  (c.generate_version_with_context env template_name context, c)

namespace version_it_core

/-- `VersionType` from `crates/version-it-core/src/lib.rs`. -/
inductive VersionType
  | semantic (v : SemVer)
  | calver (year month day : Nat)
  | timestamp (s : String)
  | commit (s : String)
  | build (major minor patch build : Nat)
  | monotonic (n : Nat)
  | datetime (s : String)
  | pattern (s : String)
deriving DecidableEq, Repr

/-- `VersionInfo` from `crates/version-it-core/src/lib.rs`. -/
structure VersionInfo where
  scheme : String
  version : VersionType
  channel : Option String
deriving DecidableEq, Repr

/-- Collaborator results consulted by the bump operations: the formatted
current instant (`current_timestamp`, `current_datetime`) and the short HEAD
hash query `current_commit`, whose two failure modes are both collapsed by
`unwrap_or_else` in the source, hence one `error` case here. -/
structure TimeGitEnv where
  timestampNow : String
  commitShort : Except String String
  datetimeNow : String

/-- `VersionInfo::bump_major` from `lib.rs`. -/
def bump_major (env : TimeGitEnv) (vi : VersionInfo) : VersionInfo :=
  { vi with version :=
    match vi.version with
    | .calver year _ _ => .calver (year + 1) 1 1
    | .semantic v =>
      .semantic { v with major := v.major + 1, minor := 0, patch := 0, pre := "", buildMeta := "" }
    | .timestamp _ => .timestamp env.timestampNow
    | .commit _ =>
      .commit (match env.commitShort with | .ok s => s | .error _ => "unknown")
    | .build major _ _ build => .build (major + 1) 0 0 build
    | .monotonic n => .monotonic (n + 1)
    | .datetime _ => .datetime env.datetimeNow
    | .pattern s => .pattern (s ++ "-updated") }

/-- `VersionInfo::bump_minor` from `lib.rs`. -/
def bump_minor (env : TimeGitEnv) (vi : VersionInfo) : VersionInfo :=
  { vi with version :=
    match vi.version with
    | .calver year month _ => .calver year (month + 1) 1
    | .semantic v =>
      .semantic { v with minor := v.minor + 1, patch := 0, pre := "", buildMeta := "" }
    | .timestamp _ => .timestamp env.timestampNow
    | .commit _ =>
      .commit (match env.commitShort with | .ok s => s | .error _ => "unknown")
    | .build major minor _ build => .build major (minor + 1) 0 build
    | .monotonic n => .monotonic (n + 1)
    | .datetime _ => .datetime env.datetimeNow
    | .pattern s => .pattern (s ++ "-updated") }

/-- `VersionInfo::bump_patch` from `lib.rs` (note the Build arm: patch is
incremented and the build component is reset to 0). -/
def bump_patch (env : TimeGitEnv) (vi : VersionInfo) : VersionInfo :=
  { vi with version :=
    match vi.version with
    | .calver year month day => .calver year month (day + 1)
    | .semantic v => .semantic { v with patch := v.patch + 1, pre := "", buildMeta := "" }
    | .timestamp _ => .timestamp env.timestampNow
    | .commit _ =>
      .commit (match env.commitShort with | .ok s => s | .error _ => "unknown")
    | .build major minor patch _ => .build major minor (patch + 1) 0
    | .monotonic n => .monotonic (n + 1)
    | .datetime _ => .datetime env.datetimeNow
    | .pattern s => .pattern (s ++ "-updated") }

/-- `VersionInfo::to_string` from `lib.rs`: the base string per variant, then
the channel suffix rules (the `match channel.as_str()` is rendered as an
equality chain). -/
def to_string (vi : VersionInfo) : String :=
  let base_version :=
    match vi.version with
    | .calver year month day => natPad 2 year ++ "." ++ natPad 2 month ++ "." ++ natPad 2 day
    | .semantic v => semverToString v
    | .timestamp s => s
    | .commit s => s
    | .build major minor patch build =>
      toString major ++ "." ++ toString minor ++ "." ++ toString patch ++ "." ++ toString build
    | .monotonic n => toString n
    | .datetime s => s
    | .pattern s => s
  match vi.channel with
  | some channel =>
    if channel = "stable" then base_version
    else if channel = "beta" then
      match vi.version with
      | .semantic v => if v.pre = "" then base_version ++ "-beta.1" else base_version
      | _ => base_version ++ "-beta"
    else if channel = "nightly" then
      match vi.version with
      | .timestamp _ => base_version
      | .commit _ => base_version
      | _ => base_version ++ "-nightly"
    else base_version ++ "-" ++ channel
  | none => base_version

end version_it_core

namespace version_it_version

/-- The `Version` numeric triple from `crates/version-it-version/src/lib.rs`. -/
structure Version where
  major : Nat
  minor : Nat
  patch : Nat
deriving DecidableEq, Repr

/-- `VersionType` from `crates/version-it-version/src/lib.rs` (has the extra
`SemanticCommit` variant and no prerelease/build payload on `Semantic`). -/
inductive VersionType
  | semantic (v : Version)
  | calver (year month day : Nat)
  | timestamp (s : String)
  | commit (s : String)
  | build (major minor patch build : Nat)
  | monotonic (n : Nat)
  | datetime (s : String)
  | pattern (s : String)
  | semanticCommit (major minor commit_count : Nat)
deriving DecidableEq, Repr

/-- `VersionInfo` from `crates/version-it-version/src/lib.rs`. -/
structure VersionInfo where
  scheme : String
  version : VersionType
  channel : Option String
deriving DecidableEq, Repr

/-- Collaborator results for this crate's `bump_patch`: the formatted current
instant and `current_commit_short`, which already substitutes `"unknown"`
internally and therefore always yields a plain string. -/
structure AltEnv where
  timestampNow : String
  commitShortOrUnknown : String

/-- `VersionInfo::bump_major` from `version-it-version` (no env consulted:
the catch-all arm leaves other schemes unchanged). -/
def bump_major (vi : VersionInfo) : VersionInfo :=
  { vi with version :=
    match vi.version with
    | .semantic v => .semantic { v with major := v.major + 1, minor := 0, patch := 0 }
    | .calver year month day => .calver (year + 1) month day
    | .build major minor patch build => .build (major + 1) minor patch build
    | .semanticCommit major minor commit_count => .semanticCommit (major + 1) minor commit_count
    | other => other }

/-- `VersionInfo::bump_minor` from `version-it-version` (note the Build arm:
minor is incremented and build is reset to 0, patch left unchanged). -/
def bump_minor (vi : VersionInfo) : VersionInfo :=
  { vi with version :=
    match vi.version with
    | .semantic v => .semantic { v with minor := v.minor + 1, patch := 0 }
    | .calver year month _ => .calver year (month + 1) 1
    | .build major minor patch _ => .build major (minor + 1) patch 0
    | .semanticCommit major minor _ => .semanticCommit major (minor + 1) 0
    | other => other }

/-- `VersionInfo::bump_patch` from `version-it-version`. -/
def bump_patch (env : AltEnv) (vi : VersionInfo) : VersionInfo :=
  { vi with version :=
    match vi.version with
    | .semantic v => .semantic { v with patch := v.patch + 1 }
    | .calver year month day => .calver year month (day + 1)
    | .build major minor patch _ => .build major minor (patch + 1) 0
    | .timestamp _ => .timestamp env.timestampNow
    | .commit _ => .commit env.commitShortOrUnknown
    | .semanticCommit major minor commit_count => .semanticCommit major minor (commit_count + 1)
    | other => other }

end version_it_version

/-! ## Association-list and fold lemmas -/

theorem assocFind_insert_self {α : Type} (m : List (String × α)) (k : String) (v : α) :
    assocFind (assocInsert m k v) k = some v := by
  induction m with
  | nil => simp [assocInsert, assocFind]
  | cons kv rest ih =>
    obtain ⟨k', v'⟩ := kv
    by_cases h : k' = k
    · simp [assocInsert, assocFind, h]
    · simp [assocInsert, assocFind, h, ih]

theorem assocFind_insert_other {α : Type} (m : List (String × α)) (k k' : String) (v : α)
    (h : k ≠ k') : assocFind (assocInsert m k v) k' = assocFind m k' := by
  induction m with
  | nil => simp [assocInsert, assocFind, h]
  | cons kv rest ih =>
    obtain ⟨k₀, v₀⟩ := kv
    by_cases h₀ : k₀ = k
    · simp [assocInsert, assocFind, h₀, h]
    · simp [assocInsert, assocFind, h₀, ih]

theorem assocFind_eq_none_of_not_mem {α : Type} (m : List (String × α)) (k : String)
    (h : k ∉ m.map Prod.fst) : assocFind m k = none := by
  induction m with
  | nil => simp [assocFind]
  | cons kv rest ih =>
    obtain ⟨k₀, v₀⟩ := kv
    simp only [List.map, List.mem_cons] at h
    push_neg at h
    have hne : ¬ k₀ = k := fun hh => h.1 hh.symm
    simp [assocFind, hne, ih h.2]

theorem assocFind_foldl_insert (l m : List (String × Nat)) (k : String)
    (h : (l.map Prod.fst).Nodup) :
    assocFind (l.foldl (fun acc kv => assocInsert acc kv.1 kv.2) m) k =
      orO (assocFind l k) (assocFind m k) := by
  induction l generalizing m with
  | nil => simp [assocFind, orO]
  | cons kv rest ih =>
    obtain ⟨k₀, v₀⟩ := kv
    simp only [List.map, List.nodup_cons] at h
    simp only [List.foldl]
    rw [ih (assocInsert m k₀ v₀) h.2]
    by_cases hk : k₀ = k
    · subst hk
      rw [assocFind_eq_none_of_not_mem rest k₀ h.1]
      simp [assocFind, orO, assocFind_insert_self]
    · rw [assocFind_insert_other m k₀ k v₀ hk]
      simp [assocFind, hk, orO]

/-- The counter-copying fold used by `build_context` and the merge touches only
the `counters` field. -/
theorem foldlCounters_eq (l : List (String × Nat)) (ctx : VersionContext) :
    l.foldl (fun acc kv => { acc with counters := assocInsert acc.counters kv.1 kv.2 }) ctx =
      { ctx with counters := l.foldl (fun m kv => assocInsert m kv.1 kv.2) ctx.counters } := by
  induction l generalizing ctx with
  | nil => rfl
  | cons kv rest ih => simp [List.foldl, ih]

/-! ## C1: template generation follows the spec's sequential algorithm -/

theorem generateLoop_map_fst (env : Env) (bs : List VersionBlock) :
    ∀ (ctx : VersionContext) (acc : List String),
      (generateLoop env bs ctx acc).map Prod.fst =
        (specEvalBlocks env bs ctx).map (fun vs => acc ++ vs) := by
  induction bs with
  | nil => intro ctx acc; simp [generateLoop, specEvalBlocks, Except.map]
  | cons b rest ih =>
    intro ctx acc
    simp only [generateLoop, specEvalBlocks]
    cases hv : b.generate_value env ctx with
    | error e => simp [Except.map]
    | ok v =>
      rw [ih]
      cases hs : specEvalBlocks env rest (ctx.set_block_value b.name v) with
      | error e => simp [hs, Except.map]
      | ok vs => simp [hs, Except.map]

/-- C1: `VersionTemplate.generate` first clears `blockValues` (so the initial
`block_values` of the passed context are irrelevant), then evaluates the blocks
strictly in declared order, storing each produced value under the block's name
before the next block is evaluated, aborting with the first block error and
producing no partial output, and on success returns the block values joined by
the separator (between consecutive blocks only) with the prefix prepended and
the suffix appended, no separator around them — i.e. it coincides with the
spec-side algorithm `specGenerate`. -/
theorem generate_clears_and_follows_spec (env : Env) (t : VersionTemplate)
    (ctx : VersionContext) (bv : List (String × String)) :
    t.generate env { ctx with block_values := bv } = t.generate env ctx ∧
    t.generate env ctx = specGenerate env t ctx := by
  refine ⟨rfl, ?_⟩
  simp only [VersionTemplate.generate, specGenerate]
  have h := generateLoop_map_fst env t.blocks { ctx with block_values := [] } []
  cases hs : specEvalBlocks env t.blocks { ctx with block_values := [] } with
  | error e =>
    rw [hs] at h
    cases hl : generateLoop env t.blocks { ctx with block_values := [] } [] with
    | error e' =>
      rw [hl] at h
      simp only [Except.map] at h
      cases h
      rfl
    | ok p =>
      rw [hl] at h
      simp [Except.map] at h
  | ok vs =>
    rw [hs] at h
    cases hl : generateLoop env t.blocks { ctx with block_values := [] } [] with
    | error e' =>
      rw [hl] at h
      simp [Except.map] at h
    | ok p =>
      rw [hl] at h
      obtain ⟨parts, ctx'⟩ := p
      simp only [Except.map] at h
      cases h
      cases hp : t.pfx <;> cases hq : t.sfx <;> simp

/-! ## C2: Versioned blocks resolve stored values or fail with a reference error -/

/-- C2: evaluating a `Versioned{name}` block returns exactly the string stored
under that name in the context's `blockValues` (populated by earlier blocks of
the same `generate` pass, see C1), fails with the reference error naming the
missing block when no value is stored under that name, and in that case never
returns any string, in particular not a silently substituted empty one. -/
theorem versioned_block_lookup (env : Env) (ctx : VersionContext) (b : VersionBlock) (n : String)
    (hb : b.block_type = .versioned n) :
    (∀ v, assocFind ctx.block_values n = some v → b.generate_value env ctx = .ok v) ∧
    (assocFind ctx.block_values n = none →
      b.generate_value env ctx = .error (.referencedBlockNotFound n)) ∧
    (assocFind ctx.block_values n = none → ∀ s, b.generate_value env ctx ≠ .ok s) := by
  refine ⟨?_, ?_, ?_⟩
  · intro v hv; simp [VersionBlock.generate_value, hb, hv]
  · intro hv; simp [VersionBlock.generate_value, hb, hv]
  · intro hv s; simp [VersionBlock.generate_value, hb, hv]

/-- A fully concrete evaluation environment for witnesses. -/
def env0 : Env :=
  { nowYear := 2025, nowMonth := 10, nowDay := 12, tsUnix := "1760227200",
    tsUnixMs := "1760227200000", tsYmdHms := "20251012000000",
    tsIso := "2025-10-12T00:00:00+00:00", formatNow := fun _ => "20251012",
    gitShortHead := .ok ⟨true, "abc1234\n"⟩, gitBranch := .ok ⟨true, "main\n"⟩ }

def refBlock : VersionBlock :=
  { name := "ref", block_type := .versioned "base", format := none, config := [] }

def refCtx : VersionContext :=
  { VersionContext.new with block_values := [("base", "1.2.3")] }

theorem versioned_block_lookup_witness :
    refBlock.generate_value env0 refCtx = .ok "1.2.3" :=
  (versioned_block_lookup env0 refCtx refBlock "base" rfl).1 "1.2.3" (by decide)

/-! ## C3: git failure handling in Commit/Branch blocks -/

/-- C3 (amended): for a Commit (resp. Branch) block with no
`currentCommit` (resp. `currentBranch`) in the context, a git invocation that
ran but exited unsuccessfully produces the literal value `"unknown"`, while a
git invocation that could not be spawned at all propagates the I/O error out
of evaluation (the source applies `?` to `Command::output()`). -/
theorem commit_branch_git_failure_policy (env : Env) (ctx : VersionContext) (b : VersionBlock) :
    (b.block_type = .commit → ctx.current_commit = none →
      (∀ out, env.gitShortHead = .ok out → out.success = false →
          b.generate_value env ctx = .ok "unknown") ∧
      (∀ e, env.gitShortHead = .error e → b.generate_value env ctx = .error (.ioError e))) ∧
    (b.block_type = .branch → ctx.current_branch = none →
      (∀ out, env.gitBranch = .ok out → out.success = false →
          b.generate_value env ctx = .ok "unknown") ∧
      (∀ e, env.gitBranch = .error e → b.generate_value env ctx = .error (.ioError e))) := by
  constructor
  · intro hb hc
    constructor
    · intro out hout hsucc; simp [VersionBlock.generate_value, hb, hc, hout, hsucc]
    · intro e he; simp [VersionBlock.generate_value, hb, hc, he]
  · intro hb hc
    constructor
    · intro out hout hsucc; simp [VersionBlock.generate_value, hb, hc, hout, hsucc]
    · intro e he; simp [VersionBlock.generate_value, hb, hc, he]

/-- Environment in which the git binary cannot be spawned at all. -/
def envSpawnFail : Env :=
  { env0 with
    gitShortHead := .error "git: command not found"
    gitBranch := .error "git: command not found" }

/-- Environment in which git runs but exits with a failure status. -/
def envStatusFail : Env :=
  { env0 with gitShortHead := .ok ⟨false, ""⟩, gitBranch := .ok ⟨false, ""⟩ }

def commitBlock : VersionBlock :=
  { name := "commit", block_type := .commit, format := none, config := [] }

/-- C3 counterexample: with no `currentCommit` in the context and a git query
that fails by not spawning, evaluating a Commit block propagates the I/O
error instead of producing the value `"unknown"`, so not every git-query
failure degrades to `"unknown"`. -/
theorem commit_git_spawn_failure_propagates :
    commitBlock.generate_value envSpawnFail VersionContext.new
        = .error (.ioError "git: command not found") ∧
    commitBlock.generate_value envSpawnFail VersionContext.new ≠ .ok "unknown" :=
  ⟨rfl, by decide⟩

theorem commit_branch_git_failure_policy_witness :
    commitBlock.generate_value envStatusFail VersionContext.new = .ok "unknown" :=
  ((commit_branch_git_failure_policy envStatusFail VersionContext.new commitBlock).1 rfl rfl).1
    ⟨false, ""⟩ rfl rfl

/-! ## C4: which blocks are insensitive to the clock/git environment -/

/-- Blocks whose evaluation never consults the environment: everything except
Timestamp, Commit, Branch and Date blocks, and Calver blocks with at least one
of year/month/day left unset (those read the current date). -/
def blockDeterministic (b : VersionBlock) : Bool :=
  match b.block_type with
  | .timestamp => false
  | .commit => false
  | .branch => false
  | .date _ => false
  | .calver y m d => y.isSome && m.isSome && d.isSome
  | _ => true

/-- A template with no Timestamp, Commit or Branch blocks (the exclusion list
of the original claim). -/
def noTcbBlocks (t : VersionTemplate) : Bool :=
  t.blocks.all fun b =>
    match b.block_type with
    | .timestamp => false
    | .commit => false
    | .branch => false
    | _ => true

theorem generate_value_env_free (env₁ env₂ : Env) (b : VersionBlock) (ctx : VersionContext)
    (h : blockDeterministic b = true) :
    b.generate_value env₁ ctx = b.generate_value env₂ ctx := by
  cases hb : b.block_type with
  | semantic ma mi pa => simp [VersionBlock.generate_value, hb]
  | calver y m d =>
    simp only [blockDeterministic, hb, Bool.and_eq_true, Option.isSome_iff_exists] at h
    obtain ⟨⟨⟨a, ha⟩, ⟨a', ha'⟩⟩, ⟨a'', ha''⟩⟩ := h
    subst ha; subst ha'; subst ha''
    simp [VersionBlock.generate_value, hb]
  | timestamp => simp [blockDeterministic, hb] at h
  | commit => simp [blockDeterministic, hb] at h
  | counter n => simp [VersionBlock.generate_value, hb]
  | text v => simp [VersionBlock.generate_value, hb]
  | date f => simp [blockDeterministic, hb] at h
  | branch => simp [blockDeterministic, hb] at h
  | buildNumber => simp [VersionBlock.generate_value, hb]
  | versioned n => simp [VersionBlock.generate_value, hb]

theorem generateLoop_env_free (env₁ env₂ : Env) (bs : List VersionBlock)
    (h : bs.all blockDeterministic = true) :
    ∀ (ctx : VersionContext) (acc : List String),
      generateLoop env₁ bs ctx acc = generateLoop env₂ bs ctx acc := by
  induction bs with
  | nil => intro ctx acc; rfl
  | cons b rest ih =>
    intro ctx acc
    simp only [List.all_cons, Bool.and_eq_true] at h
    simp only [generateLoop]
    rw [← generate_value_env_free env₁ env₂ b ctx h.1]
    cases hv : b.generate_value env₁ ctx with
    | error e => rfl
    | ok v => exact ih h.2 _ _

/-- C4 (amended): `VersionTemplate.generate` is idempotent — two calls with the
same initial context values yield the same string, regardless of the clock/git
environment of either call and of the contexts' initial (cleared) blockValues
— provided the template contains no Timestamp, Commit, or Branch blocks, *and*
additionally no Date blocks and no Calver blocks with an unset year, month, or
day (those also read the current date, which the original claim overlooked). -/
theorem generate_deterministic_template (env₁ env₂ : Env) (t : VersionTemplate)
    (ctx : VersionContext) (bv₁ bv₂ : List (String × String))
    (h : t.blocks.all blockDeterministic = true) :
    t.generate env₁ { ctx with block_values := bv₁ }
      = t.generate env₂ { ctx with block_values := bv₂ } := by
  have h₁ : t.generate env₁ { ctx with block_values := bv₁ } = t.generate env₁ ctx := rfl
  have h₂ : t.generate env₂ { ctx with block_values := bv₂ } = t.generate env₂ ctx := rfl
  rw [h₁, h₂]
  simp only [VersionTemplate.generate]
  rw [generateLoop_env_free env₁ env₂ t.blocks h { ctx with block_values := [] } []]

/-- A Date-only template: allowed by the original claim's exclusion list. -/
def dateTpl : VersionTemplate :=
  { name := "t",
    blocks := [{ name := "today", block_type := .date "%Y%m%d", format := none, config := [] }],
    separator := ".", pfx := none, sfx := none }

/-- The clock read at two different moments. -/
def envDay1 : Env := { env0 with formatNow := fun _ => "20250101" }

def envDay2 : Env := { env0 with formatNow := fun _ => "20260101" }

/-- C4 counterexample: a template with no Timestamp/Commit/Branch blocks whose
two generations from the same initial context differ, because its Date block
formats the current instant, which moved between the calls. -/
theorem generate_date_template_not_idempotent :
    noTcbBlocks dateTpl = true ∧
    dateTpl.generate envDay1 VersionContext.new ≠ dateTpl.generate envDay2 VersionContext.new :=
  ⟨by decide, by decide⟩

/-- Semantic + counter template, deterministic per `blockDeterministic`. -/
def stableTpl : VersionTemplate :=
  { name := "w",
    blocks := [
      { name := "version", block_type := .semantic (some 1) (some 0) (some 0), format := none,
        config := [] },
      { name := "count", block_type := .counter "build", format := none, config := [] }],
    separator := "-", pfx := some "v", sfx := none }

def ctxCounters : VersionContext := { VersionContext.new with counters := [("build", 5)] }

theorem generate_deterministic_template_witness :
    stableTpl.blocks.all blockDeterministic = true ∧
    stableTpl.generate envDay1 ctxCounters = stableTpl.generate envDay2 ctxCounters :=
  ⟨by decide,
   generate_deterministic_template envDay1 envDay2 stableTpl ctxCounters [] [] (by decide)⟩

/-! ## C5: Build-scheme bump component policy in both crates -/

/-- C5 (amended): in `version-it-core`, for every Build value `a.b.c.d`,
`bump_patch` increments patch and resets the build component to 0 while
`bump_major` (major+1, minor=0, patch=0) and `bump_minor` (minor+1, patch=0)
leave the build component unchanged; in the parallel `version-it-version`
crate however `bump_major` only increments major (leaving minor, patch and
build unchanged), `bump_minor` increments minor and resets build to 0 (leaving
patch unchanged), and `bump_patch` increments patch and resets build to 0. -/
theorem build_bump_component_policy (env : version_it_core.TimeGitEnv)
    (env₂ : version_it_version.AltEnv) (sch : String) (ch : Option String) (M m p b : Nat) :
    (version_it_core.bump_patch env ⟨sch, .build M m p b, ch⟩).version
        = version_it_core.VersionType.build M m (p + 1) 0 ∧
    (version_it_core.bump_major env ⟨sch, .build M m p b, ch⟩).version
        = version_it_core.VersionType.build (M + 1) 0 0 b ∧
    (version_it_core.bump_minor env ⟨sch, .build M m p b, ch⟩).version
        = version_it_core.VersionType.build M (m + 1) 0 b ∧
    (version_it_version.bump_major ⟨sch, .build M m p b, ch⟩).version
        = version_it_version.VersionType.build (M + 1) m p b ∧
    (version_it_version.bump_minor ⟨sch, .build M m p b, ch⟩).version
        = version_it_version.VersionType.build M (m + 1) p 0 ∧
    (version_it_version.bump_patch env₂ ⟨sch, .build M m p b, ch⟩).version
        = version_it_version.VersionType.build M m (p + 1) 0 :=
  ⟨rfl, rfl, rfl, rfl, rfl, rfl⟩

/-- C5 counterexample: in the `version-it-version` crate (one of the two cited
implementations), `bump_minor` on the Build value `1.2.3.4` yields `1.3.3.0`
— the build component is reset to 0 and patch is left at 3 — not the
`1.3.0.4` that the claimed policy (minor+1, patch=0, build unchanged)
prescribes. -/
theorem build_bump_minor_divergence :
    (version_it_version.bump_minor ⟨"build", .build 1 2 3 4, none⟩).version
        = version_it_version.VersionType.build 1 3 3 0 ∧
    version_it_version.VersionType.build 1 3 3 0
        ≠ version_it_version.VersionType.build 1 3 0 4 :=
  ⟨rfl, by decide⟩

/-! ## C6: semantic bump rules in version-it-core -/

/-- C6: on every semantic version, `bump_major` sets major+1/minor=0/patch=0
and clears prerelease and build metadata, `bump_minor` sets minor+1/patch=0
and clears both, `bump_patch` sets patch+1 and clears both; consequently two
consecutive `bump_patch` calls increment patch by exactly 2 leaving major and
minor unchanged, and `bump_minor` resets patch to 0. -/
theorem semantic_bump_rules (env : version_it_core.TimeGitEnv) (sch : String)
    (ch : Option String) (M m p : Nat) (pre bmeta : String) :
    (version_it_core.bump_major env ⟨sch, .semantic ⟨M, m, p, pre, bmeta⟩, ch⟩).version
        = version_it_core.VersionType.semantic ⟨M + 1, 0, 0, "", ""⟩ ∧
    (version_it_core.bump_minor env ⟨sch, .semantic ⟨M, m, p, pre, bmeta⟩, ch⟩).version
        = version_it_core.VersionType.semantic ⟨M, m + 1, 0, "", ""⟩ ∧
    (version_it_core.bump_patch env ⟨sch, .semantic ⟨M, m, p, pre, bmeta⟩, ch⟩).version
        = version_it_core.VersionType.semantic ⟨M, m, p + 1, "", ""⟩ ∧
    (version_it_core.bump_patch env
        (version_it_core.bump_patch env ⟨sch, .semantic ⟨M, m, p, pre, bmeta⟩, ch⟩)).version
        = version_it_core.VersionType.semantic ⟨M, m, p + 2, "", ""⟩ :=
  ⟨rfl, rfl, rfl, rfl⟩

/-! ## C7: channel suffix rules of to_string -/

/-- Spec-side base string of a version value (spec section 4.1 stringify). -/
def baseVersionString (vt : version_it_core.VersionType) : String :=
  match vt with
  | .calver year month day => natPad 2 year ++ "." ++ natPad 2 month ++ "." ++ natPad 2 day
  | .semantic v => semverToString v
  | .timestamp s => s
  | .commit s => s
  | .build major minor patch build =>
    toString major ++ "." ++ toString minor ++ "." ++ toString patch ++ "." ++ toString build
  | .monotonic n => toString n
  | .datetime s => s
  | .pattern s => s

/-- Spec-side channel suffix (amended rules): `stable` adds nothing; `beta`
adds `-beta.1` on a semantic value without a prerelease tag, nothing on a
semantic value that has one, and `-beta` on every non-semantic value;
`nightly` adds nothing on Timestamp/Commit values and `-nightly` otherwise;
any other channel is appended verbatim as `-<channel>`. -/
def channelSuffixSpec (vt : version_it_core.VersionType) (channel : Option String) : String :=
  match channel with
  | none => ""
  | some ch =>
    if ch = "stable" then ""
    else if ch = "beta" then
      match vt with
      | .semantic v => if v.pre = "" then "-beta.1" else ""
      | _ => "-beta"
    else if ch = "nightly" then
      match vt with
      | .timestamp _ => ""
      | .commit _ => ""
      | _ => "-nightly"
    else "-" ++ ch

/-- C7 (amended): stringification is the base string followed by the channel
suffix of `channelSuffixSpec`: `stable` leaves the base unchanged; `beta`
yields `base-beta.1` exactly on semantic values without an existing
prerelease, leaves semantic values with a prerelease unchanged, and appends
`-beta` to every other scheme's value; `nightly` is suppressed for Timestamp
and Commit values and appended as `-nightly` otherwise; any other channel is
appended verbatim. -/
theorem to_string_channel_rules (vi : version_it_core.VersionInfo) :
    version_it_core.to_string vi
      = baseVersionString vi.version ++ channelSuffixSpec vi.version vi.channel := by
  obtain ⟨sch, vt, ch⟩ := vi
  cases ch with
  | none =>
    cases vt <;> simp [version_it_core.to_string, baseVersionString, channelSuffixSpec]
  | some c =>
    cases vt <;>
      simp only [version_it_core.to_string, baseVersionString, channelSuffixSpec] <;>
      split_ifs <;> simp [String.append_assoc]

/-- C7 counterexample: a non-semantic value carrying channel `beta` — here
`Monotonic 5` — stringifies to `"5-beta"`, which is neither the base string
with `-beta.1` appended (despite there being no prerelease tag) nor the base
string unchanged. -/
theorem beta_nonsemantic_counterexample :
    version_it_core.to_string ⟨"monotonic", .monotonic 5, some "beta"⟩ = "5-beta" ∧
    ("5-beta" : String) ≠ "5-beta.1" ∧ ("5-beta" : String) ≠ "5" :=
  ⟨by decide, by decide, by decide⟩

/-! ## C8: composer resolution failures -/

/-- C8: `generate_version` fails with `noTemplateSelected` when no name is
given and no default template is set, fails with `templateNotFound` naming the
resolved name when it is absent from the composer's template map, and any such
resolution failure is decided before block evaluation: the result is the same
for every environment, so no block is evaluated and no block value can have
been produced. -/
theorem generate_version_resolution_errors (env : Env) (c : VersionComposer)
    (template_name : Option String) :
    (c.template_name_resolved template_name = none →
      c.generate_version env template_name = .error .noTemplateSelected) ∧
    (∀ n, c.template_name_resolved template_name = some n → assocFind c.templates n = none →
      c.generate_version env template_name = .error (.templateNotFound n)) ∧
    (∀ env₂ : Env, (∃ e, c.resolveTemplate template_name = .error e) →
      c.generate_version env template_name = c.generate_version env₂ template_name) := by
  refine ⟨?_, ?_, ?_⟩
  · intro h
    simp [VersionComposer.generate_version, VersionComposer.resolveTemplate, h]
  · intro n hn hf
    simp [VersionComposer.generate_version, VersionComposer.resolveTemplate, hn, hf]
  · intro env₂ he
    obtain ⟨e, he⟩ := he
    simp [VersionComposer.generate_version, he]

def composer0 : VersionComposer := { templates := [], counters := [], default_template := none }

theorem generate_version_resolution_errors_witness :
    composer0.generate_version env0 none = .error .noTemplateSelected ∧
    composer0.generate_version env0 (some "missing") = .error (.templateNotFound "missing") :=
  ⟨(generate_version_resolution_errors env0 composer0 none).1 rfl,
   (generate_version_resolution_errors env0 composer0 (some "missing")).2.1 "missing" rfl rfl⟩

/-! ## C9: context merge semantics of generate_version_with_context -/

/-- C9: `generate_version_with_context` generates from the merge of the
caller-supplied override context over the base context: each of the four
scalar fields takes the override's value when it is `some` and keeps the base
value when it is `none`, block values come from the base, and the counters are
merged key by key — an override entry wins over a base entry with the same
name and every other base counter is retained. -/
theorem merge_context_override_semantics (base octx : VersionContext) :
    (mergeContext base octx).current_version = orO octx.current_version base.current_version ∧
    (mergeContext base octx).current_commit = orO octx.current_commit base.current_commit ∧
    (mergeContext base octx).current_branch = orO octx.current_branch base.current_branch ∧
    (mergeContext base octx).build_number = orO octx.build_number base.build_number ∧
    (mergeContext base octx).block_values = base.block_values ∧
    (∀ k, (octx.counters.map Prod.fst).Nodup →
      assocFind (mergeContext base octx).counters k =
        orO (assocFind octx.counters k) (assocFind base.counters k)) ∧
    (∀ (env : Env) (c : VersionComposer) (nm : Option String) (t : VersionTemplate),
      c.resolveTemplate nm = .ok t →
      c.generate_version_with_context env nm octx =
        t.generate env (mergeContext (c.build_context env) octx)) := by
  obtain ⟨cv, cc, cb, bn, cnt, bvs⟩ := octx
  refine ⟨?_, ?_, ?_, ?_, ?_, ?_, ?_⟩
  · cases cv <;> cases cc <;> cases cb <;> cases bn <;>
      simp [mergeContext, foldlCounters_eq, orO]
  · cases cv <;> cases cc <;> cases cb <;> cases bn <;>
      simp [mergeContext, foldlCounters_eq, orO]
  · cases cv <;> cases cc <;> cases cb <;> cases bn <;>
      simp [mergeContext, foldlCounters_eq, orO]
  · cases cv <;> cases cc <;> cases cb <;> cases bn <;>
      simp [mergeContext, foldlCounters_eq, orO]
  · cases cv <;> cases cc <;> cases cb <;> cases bn <;>
      simp [mergeContext, foldlCounters_eq, orO]
  · intro k hnd
    cases cv <;> cases cc <;> cases cb <;> cases bn <;>
      simp [mergeContext, foldlCounters_eq, assocFind_foldl_insert _ _ _ hnd]
  · intro env c nm t ht
    simp [VersionComposer.generate_version_with_context, ht]

def base0 : VersionContext :=
  { VersionContext.new with current_version := some "1.0.0", counters := [("b", 9), ("c", 3)] }

def octx0 : VersionContext :=
  { VersionContext.new with current_version := some "2.0.0", counters := [("a", 1), ("b", 2)] }

theorem merge_context_override_semantics_witness :
    (mergeContext base0 octx0).current_version = some "2.0.0" ∧
    assocFind (mergeContext base0 octx0).counters "b" = some 2 ∧
    assocFind (mergeContext base0 octx0).counters "c" = some 3 := by
  have h := merge_context_override_semantics base0 octx0
  exact ⟨h.1.trans (by decide),
    (h.2.2.2.2.2.1 "b" (by decide)).trans (by decide),
    (h.2.2.2.2.2.1 "c" (by decide)).trans (by decide)⟩

/-! ## C10: generation does not mutate the composer -/

/-- C10: both generation entry points leave the composer unchanged — the
same templates, counters, and default-template name, whether the generation
call succeeds or fails — and the persistent counters do move under the two
dedicated mutators: `set_counter` writes exactly the given value and
`increment_counter` stores and returns the old value (0 for an unseen name)
plus one, both leaving templates and the default name untouched. -/
theorem generation_preserves_composer_state (env : Env) (c : VersionComposer)
    (nm : Option String) (octx : VersionContext) (n : String) (v : Nat) :
    (c.generate_versionS env nm).2 = c ∧
    (c.generate_version_with_contextS env nm octx).2 = c ∧
    (c.set_counter n v).templates = c.templates ∧
    (c.set_counter n v).default_template = c.default_template ∧
    assocFind (c.set_counter n v).counters n = some v ∧
    (c.increment_counter n).1 = (assocFind c.counters n).getD 0 + 1 ∧
    (c.increment_counter n).2.templates = c.templates ∧
    (c.increment_counter n).2.default_template = c.default_template ∧
    assocFind (c.increment_counter n).2.counters n
      = some ((assocFind c.counters n).getD 0 + 1) :=
  ⟨rfl, rfl, rfl, rfl, assocFind_insert_self _ _ _, rfl, rfl, rfl, assocFind_insert_self _ _ _⟩
